import Mathlib

/-!
Shallow embedding of the Streamlit `AppView` layout component
(`src/frontend/app/src/components/AppView/AppView.tsx`) and of the
`AppUrlContext` store
(`src/frontend/lib/src/components/StreamlitApp/stores/AppUrlContext.ts`).

The component consumes opaque collaborator objects (widget manager, upload
client, component registry, endpoints, session info); those are only passed
through to children and play no role in the component's own logic, so the
embedding keeps the fields the component actually inspects: the element
tree regions, the page list, the `hideSidebarNav` flag and the context
booleans.  Rendering is embedded as a pure function from props, context and
the `showSidebarOverride` state to a value describing the produced tree.
-/

/-- An element of the rendered tree; the component only ever inspects the
`type` tag (to look for `"chatInput"`). -/
structure StElement where
  type : String
deriving DecidableEq, Repr

/-- A region of the `AppRoot` tree.  `isEmpty`, `getElements` and
`scriptRunId` are the three observables the component reads; the tree
itself is owned by a collaborator module, so they are independent fields
here. -/
structure BlockNode where
  elements : List StElement
  isEmpty : Bool
  scriptRunId : String
deriving Repr

/-- `getElements()` flattened to a list, as consumed via `Array.from`. -/
def BlockNode.getElements (b : BlockNode) : List StElement := b.elements

/-- The `AppRoot` tree with its three named regions. -/
structure AppRoot where
  main : BlockNode
  sidebar : BlockNode
  event : BlockNode
deriving Repr

/-- An entry of the `appPages` prop (`IAppPage`). -/
structure IAppPage where
  pageName : String
  pageScriptHash : String
deriving DecidableEq, Repr

/-- The fields of `AppViewProps` that the component's own logic reads. -/
structure AppViewProps where
  elements : AppRoot
  scriptRunId : String
  widgetsDisabled : Bool
  appPages : List IAppPage
  currentPageScriptHash : String
  hideSidebarNav : Bool
deriving Repr

/-- The `AppContext` values destructured at the top of `AppView`. -/
structure AppContextValue where
  wideMode : Bool
  initialSidebarState : String
  embedded : Bool
  showPadding : Bool
  disableScrolling : Bool
  showFooter : Bool
  showToolbar : Bool
  showColoredLine : Bool
  toastAdjustment : Bool
deriving Repr

/-- `const layout = wideMode ? "wide" : "narrow"`. -/
def layoutOf (wideMode : Bool) : String :=
  if wideMode then "wide" else "narrow"

/-- `const hasSidebarElements = !elements.sidebar.isEmpty`. -/
def hasSidebarElements (props : AppViewProps) : Bool :=
  !props.elements.sidebar.isEmpty

/-- `const hasEventElements = !elements.event.isEmpty`. -/
def hasEventElements (props : AppViewProps) : Bool :=
  !props.elements.event.isEmpty

/-- `const showSidebar = hasSidebarElements || (!hideSidebarNav &&
appPages.length > 1) || showSidebarOverride`. -/
def showSidebar (props : AppViewProps) (showSidebarOverride : Bool) : Bool :=
  hasSidebarElements props ||
    (!props.hideSidebarNav && decide (props.appPages.length > 1)) ||
    showSidebarOverride

/-- `Array.from(elements.main.getElements()).find(e => e.type === "chatInput")
!== undefined`. -/
def containsChatInput (props : AppViewProps) : Bool :=
  (props.elements.main.getElements.find? fun element =>
    element.type == "chatInput").isSome

/-- The component chosen for the main region. -/
inductive MainComponent where
  | scrollToBottomContainer
  | styledAppViewMain
deriving DecidableEq, Repr

/-- The props handed to `ThemedSidebar` when the sidebar region renders. -/
structure SidebarRender where
  appPages : List IAppPage
  hasElements : Bool
  currentPageScriptHash : String
  hideSidebarNav : Bool
  block : BlockNode
deriving Repr

/-- The rendered main region: which container was used, its flags, the block
it renders and whether the iframe-resizer anchor is present. -/
structure MainRender where
  component : MainComponent
  isEmbedded : Bool
  disableScrolling : Bool
  block : BlockNode
  iframeResizerAnchor : Bool
deriving Repr

/-- The props handed to `EventContainer` when the event region renders. -/
structure EventRender where
  toastAdjustment : Bool
  scriptRunId : String
  block : BlockNode
deriving Repr

/-- The full tree returned by one `AppView` render. -/
structure AppViewRender where
  dataLayout : String
  sidebar : Option SidebarRender
  main : MainRender
  event : Option EventRender
deriving Repr

/-- One render of `AppView`, as the pure function from props, context and the
`showSidebarOverride` state to the produced tree (the returned JSX of
`AppView.tsx` lines 203-249). -/
def renderAppView (ctx : AppContextValue) (props : AppViewProps)
    (showSidebarOverride : Bool) : AppViewRender :=
  { dataLayout := layoutOf ctx.wideMode
    sidebar :=
      if showSidebar props showSidebarOverride then
        some { appPages := props.appPages
               hasElements := hasSidebarElements props
               currentPageScriptHash := props.currentPageScriptHash
               hideSidebarNav := props.hideSidebarNav
               block := props.elements.sidebar }
      else none
    main :=
      { component :=
          if containsChatInput props then
            MainComponent.scrollToBottomContainer
          else
            MainComponent.styledAppViewMain
        isEmbedded := ctx.embedded
        disableScrolling := ctx.disableScrolling
        block := props.elements.main
        iframeResizerAnchor := !containsChatInput props }
    event :=
      if hasEventElements props then
        some { toastAdjustment := ctx.toastAdjustment
               scriptRunId := props.elements.event.scriptRunId
               block := props.elements.event }
      else none }

/-- A block with no elements, used for concrete evaluations. -/
def emptyBlock : BlockNode :=
  { elements := [], isEmpty := true, scriptRunId := "run0" }

/-- A concrete context value for concrete evaluations. -/
def cCtx : AppContextValue :=
  { wideMode := false, initialSidebarState := "auto", embedded := false
    showPadding := false, disableScrolling := false, showFooter := true
    showToolbar := true, showColoredLine := true, toastAdjustment := false }

/-- Concrete props: empty sidebar region, two pages, `hideSidebarNav` on. -/
def cexProps : AppViewProps :=
  { elements := { main := emptyBlock, sidebar := emptyBlock, event := emptyBlock }
    scriptRunId := "run0"
    widgetsDisabled := false
    appPages := [{ pageName := "a", pageScriptHash := "ha" },
                 { pageName := "b", pageScriptHash := "hb" }]
    currentPageScriptHash := "ha"
    hideSidebarNav := true }

/-- C1 counterexample: with an empty sidebar region, two pages,
`hideSidebarNav = true` and the override false, the component does not render
the sidebar, yet the claim's formula `!sidebar.isEmpty || appPages.length > 1`
is true — so `showSidebar` is not that formula for all values of
`hideSidebarNav` and of the override. -/
theorem C1_counterexample :
    ¬ ((renderAppView cCtx cexProps false).sidebar.isSome =
        (!cexProps.elements.sidebar.isEmpty ||
          decide (cexProps.appPages.length > 1))) := by
  decide

/-- C1 (amended): for every render, the sidebar region is rendered iff
`showSidebar`, and `showSidebar` equals `hasSidebarElements OR
(!hideSidebarNav AND appPages.length > 1) OR showSidebarOverride`. -/
theorem C1_showSidebar (ctx : AppContextValue) (props : AppViewProps)
    (ov : Bool) :
    (renderAppView ctx props ov).sidebar.isSome = showSidebar props ov ∧
      showSidebar props ov =
        (!props.elements.sidebar.isEmpty ||
          (!props.hideSidebarNav && decide (props.appPages.length > 1)) ||
          ov) := by
  constructor
  · by_cases h : showSidebar props ov = true
    · simp [renderAppView, h]
    · simp [renderAppView, Bool.not_eq_true] at h ⊢
      simp [h]
  · rfl

/-- The one outbound message shape (`IGuestToHostMessage` as used here). -/
structure IGuestToHostMessage where
  type : String
  hash : String
deriving DecidableEq, Repr

/-- The hashchange listener installed by the effect at `AppView.tsx` lines
139-148: on one hashchange event with current `window.location.hash` equal to
`locationHash`, these are the messages passed to `sendMessageToHost`. -/
def hashchangeListenerMessages (locationHash : String) :
    List IGuestToHostMessage :=
  [{ type := "UPDATE_HASH", hash := locationHash }]

/-- C2: each hashchange event sends exactly one message to the host, and that
message is exactly the object with type `UPDATE_HASH` and the hash the
location had when the event fired. -/
theorem C2_updateHash (h : String) :
    hashchangeListenerMessages h = [{ type := "UPDATE_HASH", hash := h }] ∧
      (hashchangeListenerMessages h).length = 1 ∧
      ∀ m ∈ hashchangeListenerMessages h,
        m.type = "UPDATE_HASH" ∧ m.hash = h := by
  refine ⟨rfl, rfl, ?_⟩
  intro m hm
  simp [hashchangeListenerMessages] at hm
  simp [hm]

/-- C2 witness at the concrete hash string `#x`. -/
theorem C2_updateHash_witness :
    hashchangeListenerMessages "#x" =
      [{ type := "UPDATE_HASH", hash := "#x" }] :=
  (C2_updateHash "#x").1

/-- C3: `containsChatInput` holds iff some element of the main region has
type `chatInput`, and the main container is the scroll-anchored one iff
`containsChatInput` holds (otherwise it is `StyledAppViewMain`). -/
theorem C3_chatInput (ctx : AppContextValue) (props : AppViewProps)
    (ov : Bool) :
    (containsChatInput props = true ↔
        ∃ e ∈ props.elements.main.getElements, e.type = "chatInput") ∧
      ((renderAppView ctx props ov).main.component =
          MainComponent.scrollToBottomContainer ↔
        containsChatInput props = true) ∧
      ((renderAppView ctx props ov).main.component =
          MainComponent.styledAppViewMain ↔
        containsChatInput props = false) := by
  refine ⟨?_, ?_, ?_⟩
  · rw [containsChatInput, List.find?_isSome]
    simp
  · by_cases h : containsChatInput props = true
    · simp [renderAppView, h]
    · simp [renderAppView, h]
  · by_cases h : containsChatInput props = true
    · simp [renderAppView, h]
    · simp only [Bool.not_eq_true] at h
      simp [renderAppView, h]

/-- C3 witness: a main region holding one chatInput element makes
`containsChatInput` true and selects the scroll-anchored container. -/
theorem C3_chatInput_witness :
    (containsChatInput
        { cexProps with
          elements :=
            { cexProps.elements with
              main := { elements := [{ type := "chatInput" }],
                        isEmpty := false, scriptRunId := "run0" } } } = true ↔
      ∃ e ∈ ({ elements := [{ type := "chatInput" }], isEmpty := false,
               scriptRunId := "run0" } : BlockNode).getElements,
        e.type = "chatInput") :=
  (C3_chatInput cCtx _ false).1

/-- C5: the event overlay region renders iff the event region is non-empty,
and when rendered its `scriptRunId` prop is the event region's
`scriptRunId`. -/
theorem C5_eventRegion (ctx : AppContextValue) (props : AppViewProps)
    (ov : Bool) :
    (renderAppView ctx props ov).event.isSome =
        (!props.elements.event.isEmpty) ∧
      ((renderAppView ctx props ov).event.all fun er =>
          er.scriptRunId == props.elements.event.scriptRunId) = true := by
  constructor
  · by_cases h : hasEventElements props = true
    · simp [renderAppView, h]
      simpa [hasEventElements] using h
    · simp [renderAppView, h]
      simpa [hasEventElements, Bool.not_eq_true] using h
  · by_cases h : hasEventElements props = true
    · simp [renderAppView, h, Option.all]
    · simp [renderAppView, h, Option.all]

/-- C6: the outer container's `data-layout` attribute is `wide` iff the
context's `wideMode` is true, and `narrow` iff it is false. -/
theorem C6_layout (ctx : AppContextValue) (props : AppViewProps)
    (ov : Bool) :
    (renderAppView ctx props ov).dataLayout =
        (if ctx.wideMode then "wide" else "narrow") ∧
      ((renderAppView ctx props ov).dataLayout = "wide" ↔
        ctx.wideMode = true) ∧
      ((renderAppView ctx props ov).dataLayout = "narrow" ↔
        ctx.wideMode = false) := by
  refine ⟨rfl, ?_, ?_⟩ <;>
    cases h : ctx.wideMode <;> simp [renderAppView, layoutOf, h]

/-- C8: the iframe-resizer anchor is present iff `containsChatInput` is
false, so the scroll-anchored chat container and the anchor never appear in
the same render. -/
theorem C8_anchor (ctx : AppContextValue) (props : AppViewProps)
    (ov : Bool) :
    (renderAppView ctx props ov).main.iframeResizerAnchor =
        (!containsChatInput props) ∧
      ¬ ((renderAppView ctx props ov).main.component =
            MainComponent.scrollToBottomContainer ∧
          (renderAppView ctx props ov).main.iframeResizerAnchor = true) := by
  refine ⟨rfl, ?_⟩
  rintro ⟨hc, ha⟩
  have h1 := ((C3_chatInput ctx props ov).2.1).mp hc
  simp [renderAppView, h1] at ha

/-- A `window.addEventListener` registration: event name, the identity of the
listener closure, and the capture flag. -/
structure ListenerReg where
  eventName : String
  listenerId : Nat
  capture : Bool
deriving DecidableEq, Repr

/-- The registration the hashchange effect installs:
`window.addEventListener("hashchange", listener, false)`. -/
def hashchangeReg (lid : Nat) : ListenerReg :=
  { eventName := "hashchange", listenerId := lid, capture := false }

/-- Mounting the hashchange effect adds its registration to the window's
listener list. -/
def hashchangeMount (lid : Nat) (regs : List ListenerReg) : List ListenerReg :=
  regs ++ [hashchangeReg lid]

/-- The effect's cleanup: `window.removeEventListener("hashchange", listener,
false)` with the very same listener and flags, removing that registration. -/
def hashchangeCleanup (lid : Nat) (regs : List ListenerReg) :
    List ListenerReg :=
  regs.erase (hashchangeReg lid)

/-- `addScriptFinishedHandler(scriptFinishedHandler)`: handlers identified by
the closure identity. -/
def addScriptFinishedHandler (hid : Nat) (hs : List Nat) : List Nat :=
  hs ++ [hid]

/-- `removeScriptFinishedHandler(scriptFinishedHandler)` with the very same
handler. -/
def removeScriptFinishedHandler (hid : Nat) (hs : List Nat) : List Nat :=
  hs.erase hid

/-- C4: both effects unsubscribe symmetrically: running the hashchange
effect's cleanup after its mount restores the window's listener list, and
removing the script-finished handler after adding it restores the handler
list — nothing AppView registered remains registered after unmount. -/
theorem C4_symmetricCleanup (regs : List ListenerReg) (hs : List Nat)
    (lid hid : Nat) (h1 : hashchangeReg lid ∉ regs) (h2 : hid ∉ hs) :
    hashchangeCleanup lid (hashchangeMount lid regs) = regs ∧
      removeScriptFinishedHandler hid (addScriptFinishedHandler hid hs) = hs := by
  constructor
  · rw [hashchangeCleanup, hashchangeMount, List.erase_append_right _ h1]
    simp
  · rw [removeScriptFinishedHandler, addScriptFinishedHandler,
      List.erase_append_right _ h2]
    simp

/-- C4 witness: mounting on an empty window and unmounting leaves nothing
registered. -/
theorem C4_symmetricCleanup_witness :
    (hashchangeReg 0 ∉ ([] : List ListenerReg)) ∧ (0 ∉ ([] : List Nat)) ∧
      hashchangeCleanup 0 (hashchangeMount 0 []) = [] ∧
      removeScriptFinishedHandler 0 (addScriptFinishedHandler 0 []) = [] := by
  refine ⟨by simp, by simp, ?_⟩
  exact C4_symmetricCleanup [] [] 0 0 (by simp) (by simp)

/-- The initial value of the `showSidebarOverride` state:
`React.useState(false)`. -/
def overrideInit : Bool := false

/-- `showSidebar` as a function of the three inputs it depends on, for the
state-machine view of the override. -/
def showSidebarOf (hasSidebarEls hideSidebarNav : Bool) (numPages : Nat)
    (override : Bool) : Bool :=
  hasSidebarEls || (!hideSidebarNav && decide (numPages > 1)) || override

/-- The two kinds of step that can change `showSidebarOverride`: a render
commit (running the effect at lines 150-155) and a script-finished callback
(lines 157-162).  Each carries the values its closure reads. -/
inductive AppEvent where
  | render (hasSidebarEls hideSidebarNav : Bool) (numPages : Nat)
  | scriptFinished (hasSidebarEls : Bool)
deriving DecidableEq, Repr

/-- One step of the `showSidebarOverride` state: the render effect sets it to
true when `showSidebar && hideSidebarNav && !showSidebarOverride`; the
script-finished handler sets it to false when `!hasSidebarElements &&
showSidebarOverride`. -/
def overrideStep (ov : Bool) : AppEvent → Bool
  | .render hs hn np =>
      if showSidebarOf hs hn np ov && hn && !ov then true else ov
  | .scriptFinished hs =>
      if !hs && ov then false else ov

/-- A trace of steps, folded from a starting override value. -/
def overrideRun (ov : Bool) (evs : List AppEvent) : Bool :=
  evs.foldl overrideStep ov

/-- C9: the override is a latch: it starts false; a render sets it true
exactly when `showSidebar` and `hideSidebarNav` hold (it already being true
stays true); a script-finished step leaves it true iff the sidebar region was
non-empty (so it resets only on script-finished with an empty sidebar); and
along any trace containing no script-finished-with-empty-sidebar step a true
override stays true. -/
theorem C9_overrideLatch :
    overrideInit = false ∧
      (∀ hs hn np ov,
        overrideStep ov (AppEvent.render hs hn np) =
          (ov || (showSidebarOf hs hn np ov && hn))) ∧
      (∀ hs ov, overrideStep ov (AppEvent.scriptFinished hs) = (ov && hs)) ∧
      (∀ evs : List AppEvent,
        AppEvent.scriptFinished false ∉ evs → overrideRun true evs = true) := by
  refine ⟨rfl, ?_, ?_, ?_⟩
  · intro hs hn np ov
    cases ov <;> cases hs <;> cases hn <;>
      simp [overrideStep, showSidebarOf]
  · intro hs ov
    cases ov <;> cases hs <;> simp [overrideStep]
  · intro evs
    induction evs with
    | nil => intro _; rfl
    | cons e t ih =>
      intro hmem
      have he : e ≠ AppEvent.scriptFinished false := by
        intro h
        exact hmem (h ▸ List.mem_cons_self e t)
      have ht : AppEvent.scriptFinished false ∉ t := fun h =>
        hmem (List.mem_cons_of_mem _ h)
      have hstep : overrideStep true e = true := by
        cases e with
        | render hs hn np => simp [overrideStep]
        | scriptFinished hs =>
          cases hs with
          | false => exact absurd rfl he
          | true => simp [overrideStep]
      have : overrideRun true (e :: t) = overrideRun (overrideStep true e) t :=
        rfl
      rw [this, hstep]
      exact ih ht

/-- C9 witness: along a trace that latches the override and then finishes a
script with a non-empty sidebar, the override stays true. -/
theorem C9_overrideLatch_witness :
    AppEvent.scriptFinished false ∉
        ([AppEvent.render true true 1, AppEvent.scriptFinished true] :
          List AppEvent) ∧
      overrideRun true
        [AppEvent.render true true 1, AppEvent.scriptFinished true] = true := by
  refine ⟨by decide, ?_⟩
  exact C9_overrideLatch.2.2.2 _ (by decide)

/-- C7: the embedded component is total: every render, every hashchange
event, and every trace of override steps produces a value — the source has
no fallible operation and no error branch, and the main region always
renders the main block. -/
theorem C7_total (ctx : AppContextValue) (props : AppViewProps) (ov : Bool)
    (h : String) (evs : List AppEvent) :
    (∃ r : AppViewRender, renderAppView ctx props ov = r) ∧
      (∃ ms : List IGuestToHostMessage, hashchangeListenerMessages h = ms) ∧
      (∃ b : Bool, overrideRun ov evs = b) ∧
      (renderAppView ctx props ov).main.block = props.elements.main :=
  ⟨⟨_, rfl⟩, ⟨_, rfl⟩, ⟨_, rfl⟩, rfl⟩

/-- A page entry of `AppUrl` (`StreamlitAppPage`). -/
structure StreamlitAppPage where
  pageName : String
  pageScriptHash : String
  icon : Option String
deriving DecidableEq, Repr

/-- The `AppUrl` value; `URLSearchParams` is embedded as its list of
key-value pairs, `new URLSearchParams()` being the empty list. -/
structure AppUrl where
  appPages : List StreamlitAppPage
  currentPageScriptHash : String
  queryParams : List (String × String)
deriving DecidableEq, Repr

/-- A React context: `createContext(defaultValue)`. -/
structure ReactContext (α : Type) where
  defaultValue : α

/-- `useContext(ctx)` under React's semantics: the nearest provider's value
when one is present, the context's default value otherwise. -/
def useContextValue {α : Type} (ctx : ReactContext α) (provided : Option α) :
    α :=
  provided.getD ctx.defaultValue

/-- `AppUrlContext`: created with appPages `[]`, currentPageScriptHash `""`
and an empty `URLSearchParams`. -/
def AppUrlContext : ReactContext AppUrl :=
  { defaultValue :=
      { appPages := [], currentPageScriptHash := "", queryParams := [] } }

/-- `useStreamlitAppUrl()` as a function of the optionally provided context
value. -/
def useStreamlitAppUrl (provided : Option AppUrl) : AppUrl :=
  useContextValue AppUrlContext provided

/-- C10: with no provider present, `useStreamlitAppUrl` returns the default
`AppUrl`: no pages, empty current-page hash, empty query params — a
well-formed value, never an undefined one. -/
theorem C10_defaultAppUrl :
    (useStreamlitAppUrl none).appPages = [] ∧
      (useStreamlitAppUrl none).currentPageScriptHash = "" ∧
      (useStreamlitAppUrl none).queryParams = [] :=
  ⟨rfl, rfl, rfl⟩
